import Mathlib

/-!
Verification development for the `cocenter` sales-assistant dialogue agent
(`agent.py`, `db_utils.py`, `memory_utils.py`, `models.py`).

Strings are modelled as `List Char` (written `Str` below).  Python string
operations used by the agent (`lower`, `title`, `strip`, `replace`,
`re.sub`, substring tests, digit extraction) are embedded as executable
functions over `Str`.  `lower`/`title` are modelled on the ASCII range,
which covers every literal the parsing rules compare against; non-ASCII
characters are left unchanged, which never introduces or removes a digit,
so the parsing facts proved below are unaffected.

Python `None`-able values are `Option`s.  Dictionaries with a fixed key set
are records; a key that can be *present with value `None`* (the normalized
`phone` entry) is modelled as `Option (Option Str)`, the outer layer being
key presence.  Python truthiness of a string is `s ≠ ""` and of an integer
is `n ≠ 0`; the embedding applies truthiness exactly where the source does
(`if value:`) and `≠ None` (`is not None`) where the source does.
-/

abbrev Str := List Char

/-- Python `str.strip()` (whitespace characters, ASCII model). -/
def pyIsSpace (c : Char) : Bool := c = ' ' || c = '\t' || c = '\n' || c = '\r'

/-- Python `str.strip()`: drop leading and trailing whitespace. -/
def pyStrip (s : Str) : Str :=
  ((s.dropWhile pyIsSpace).reverse.dropWhile pyIsSpace).reverse

/-- Python `str.lower()` restricted to ASCII letters. -/
def pyLower (s : Str) : Str := s.map Char.toLower

/-- Helper for `pyTitle`: `prevAlpha` says whether the previous character was a letter. -/
def pyTitleGo : Bool → Str → Str
  | _, [] => []
  | prevAlpha, c :: rest =>
    (if c.isAlpha then (if prevAlpha then c.toLower else c.toUpper) else c)
      :: pyTitleGo c.isAlpha rest

/-- Python `str.title()` (ASCII model): uppercase each letter that follows a
non-letter, lowercase the other letters. -/
def pyTitle (s : Str) : Str := pyTitleGo false s

/-- Fuelled worker for `pyReplaceDel`.  Fuel = length of the input suffices
because every step consumes at least one character. -/
def pyReplaceDelAux (pat : Str) : Nat → Str → Str
  | _, [] => []
  | 0, l => l
  | fuel + 1, c :: rest =>
    if pat ≠ [] ∧ pat.isPrefixOf (c :: rest) then
      pyReplaceDelAux pat fuel (List.drop (pat.length - 1) rest)
    else
      c :: pyReplaceDelAux pat fuel rest

/-- Python `s.replace(pat, '')`: delete every (left-to-right, non-overlapping)
occurrence of `pat`. -/
def pyReplaceDel (pat s : Str) : Str := pyReplaceDelAux pat s.length s

/-- Python `pat in s` substring test (for non-empty `pat`). -/
def containsSub (pat : Str) : Str → Bool
  | [] => decide (pat = [])
  | c :: rest => pat.isPrefixOf (c :: rest) || containsSub pat rest

/-- Numeric value of a run of decimal digits (most significant first). -/
def digitsToNat (ds : Str) : Nat := ds.foldl (fun a c => a * 10 + (c.toNat - 48)) 0

/-- Python `re.search(r'(\d+)', s)`: the first maximal run of decimal digits,
or `none` when the string holds no digit. -/
def extractFirstNum : Str → Option Nat
  | [] => none
  | c :: rest =>
    if c.isDigit then some (digitsToNat (c :: rest.takeWhile Char.isDigit))
    else extractFirstNum rest

/-- Decimal digit string of a natural number (most significant first). -/
def natToStr (n : Nat) : Str := Nat.toDigits 10 n

/-- Python `str(int)`. -/
def intToStr (n : Int) : Str :=
  if n < 0 then '-' :: natToStr n.natAbs else natToStr n.natAbs

/-- Insert `,` thousands separators into a digit run (Python `f"{v:,.0f}"`
applied to an integral value). -/
def groupThousandsRev : Nat → Str → Str
  | _, [] => []
  | 3, c :: rest => c :: groupThousandsRev 1 rest
  | k, c :: rest =>
    match rest with
    | [] => [c]
    | _ :: _ => if k = 2 then c :: ',' :: groupThousandsRev 1 rest
                else c :: groupThousandsRev (k + 1) rest

/-- Python `f"{decimal.Decimal(v):,.0f}"` for an integer `v`: digit groups of
three separated by commas, with a leading sign for negatives. -/
def commaFmt (n : Int) : Str :=
  let ds := (natToStr n.natAbs).reverse
  let grouped := (groupThousandsRev 1 ds).reverse
  if n < 0 then '-' :: grouped else grouped

/-- Raw value of one extracted-entity slot before normalization: the LLM JSON
yields strings or numbers (the agent's cleaning step has already removed
`null`s). -/
inductive RawVal where
  | str (s : Str)
  | int (n : Int)
deriving DecidableEq

/-- Python `str(value)` on a raw slot value. -/
def RawVal.pyStr : RawVal → Str
  | .str s => s
  | .int n => intToStr n

/-- `AIAgent._parse_price` (agent.py lines 296-321) on a string input:
lowercase, delete the currency tokens `tl`/`try`, delete `,`/`.` separators,
strip, detect multiplier words (`milyon` ×1,000,000; `bin`/`k` ×1,000, which
are deleted), then multiply the first extracted digit run. -/
def parsePriceStr (s : Str) : Option Int :=
  let s1 := pyLower s
  let s2 := pyReplaceDel ['t', 'r', 'y'] (pyReplaceDel ['t', 'l'] s1)
  let s3 := pyStrip (s2.filter (fun c => !(c = ',' || c = '.')))
  let res :=
    if containsSub ['m', 'i', 'l', 'y', 'o', 'n'] s3 then
      (1000000, pyReplaceDel ['m', 'i', 'l', 'y', 'o', 'n'] s3)
    else if containsSub ['b', 'i', 'n'] s3 || containsSub ['k'] s3 then
      (1000, pyReplaceDel ['k'] (pyReplaceDel ['b', 'i', 'n'] s3))
    else (1, s3)
  (extractFirstNum (pyStrip res.2)).map (fun n => (n : Int) * res.1)

/-- `AIAgent._parse_price` (agent.py lines 296-321): numbers pass through as
integers, strings go through `parsePriceStr`. -/
def parse_price : Option RawVal → Option Int
  | none => none
  | some (.int n) => some n
  | some (.str s) => parsePriceStr s

/-- Does the year pattern `(20\d{2}|19\d{2})(?!\d)` match at the head of
`c :: rest`? -/
def yearMatchHere (c : Char) (rest : Str) : Bool :=
  match rest with
  | d2 :: d3 :: d4 :: tail =>
    ((c = '1' && d2 = '9') || (c = '2' && d2 = '0')) && d3.isDigit && d4.isDigit &&
      (match tail with | [] => true | t :: _ => !t.isDigit)
  | _ => false

/-- Scan for the year pattern of `AIAgent._parse_year`:
`(?<!\d)(20\d{2}|19\d{2})(?!\d)`.  `prevDigit` carries the look-behind. -/
def findYearPattern : Bool → Str → Option Nat
  | _, [] => none
  | prevDigit, c :: rest =>
    if !prevDigit && yearMatchHere c rest then
      some (digitsToNat (c :: rest.take 3))
    else findYearPattern c.isDigit rest

/-- `AIAgent._parse_year` (agent.py lines 323-337): an integer strictly
between 1900 and 2100 passes through; otherwise the printed form is scanned
for a 4-digit `19xx`/`20xx` token not adjacent to other digits. -/
def parse_year : Option RawVal → Option Int
  | none => none
  | some (.int n) =>
    if 1900 < n ∧ n < 2100 then some n
    else (findYearPattern false (intToStr n)).map (fun k => (k : Int))
  | some (.str s) => (findYearPattern false s).map (fun k => (k : Int))

/-- `AIAgent._normalize_phone` (agent.py lines 287-294): keep only digits;
valid exactly when the digit count lies in [10, 13]. -/
def normalize_phone (s : Str) : Option Str :=
  let cleaned := s.filter Char.isDigit
  if 10 ≤ cleaned.length ∧ cleaned.length ≤ 13 then some cleaned else none


/-- Raw extracted entities, after the agent's JSON cleaning step (null-valued
keys already removed, so presence is `Option.isSome`).  Mirrors the key set of
the extraction prompt (agent.py lines 101-122) as consumed by
`AIAgent._normalize_entities`. -/
structure RawEntities where
  brand_name : Option RawVal := none
  model_name : Option RawVal := none
  engine_type : Option RawVal := none
  body_type : Option RawVal := none
  transmission : Option RawVal := none
  min_price : Option RawVal := none
  max_price : Option RawVal := none
  min_year : Option RawVal := none
  max_year : Option RawVal := none
  first_name : Option RawVal := none
  last_name : Option RawVal := none
  phone_number : Option RawVal := none
  desired_car_description : Option RawVal := none
  is_greeting : Option Bool := none
  is_reset : Option Bool := none
  is_farewell : Option Bool := none
  is_list_all : Option Bool := none
  is_similarity_request : Option Bool := none
  confirmation : Option Str := none
deriving DecidableEq

/-- Normalized-entity mapping, the output vocabulary of
`AIAgent._normalize_entities` and of the keyword fallback extractor.  A field
is `none` when its key is absent.  `phone` is doubly optional because the
source writes `normalized['phone'] = self._normalize_phone(...)`, which can
store the key with value `None`. -/
structure EntityMap where
  min_price : Option Int := none
  max_price : Option Int := none
  min_year : Option Int := none
  max_year : Option Int := none
  brand : Option Str := none
  model : Option Str := none
  engine_type : Option Str := none
  body_type : Option Str := none
  transmission : Option Str := none
  first_name : Option Str := none
  last_name : Option Str := none
  phone : Option (Option Str) := none
  desired_car_description : Option Str := none
  is_greeting : Option Bool := none
  is_reset : Option Bool := none
  is_farewell : Option Bool := none
  is_list_all : Option Bool := none
  is_similarity_request : Option Bool := none
  confirmation : Option Str := none
deriving DecidableEq

/-- The `value_mapping` table of `AIAgent._normalize_entities` for
`engine_type` (lowercased synonym → canonical Turkish value). -/
def engineMapping (s : Str) : Option Str :=
  if s = "electric".toList ∨ s = "electrical".toList ∨ s = "elektrikli".toList ∨
      s = "elektrik".toList then some "Elektrik".toList
  else if s = "diesel".toList ∨ s = "dizel".toList then some "Dizel".toList
  else if s = "gasoline".toList ∨ s = "petrol".toList ∨ s = "benzinli".toList ∨
      s = "benzin".toList then some "Benzin".toList
  else if s = "hybrid".toList ∨ s = "hibrit".toList then some "Hibrit".toList
  else none

/-- The `value_mapping` table for `body_type`. -/
def bodyMapping (s : Str) : Option Str :=
  if s = "suv".toList then some "SUV".toList
  else if s = "sedan".toList then some "Sedan".toList
  else if s = "hatchback".toList ∨ s = "hb".toList then some "Hatchback".toList
  else none

/-- The `value_mapping` table for `transmission`. -/
def transmissionMapping (s : Str) : Option Str :=
  if s = "automatic".toList ∨ s = "auto".toList ∨ s = "otomatik".toList then
    some "Otomatik".toList
  else if s = "manual".toList ∨ s = "manuel".toList then some "Manuel".toList
  else none

/-- One string-filter slot of `AIAgent._normalize_entities` (lines 257-268):
only a string value with non-empty strip survives; it is title-cased unless
the per-field mapping knows its lowercase form. -/
def normalizeStrFilter (mapping : Str → Option Str) : Option RawVal → Option Str
  | some (.str s) =>
    if pyStrip s ≠ [] then
      match mapping (pyLower (pyStrip s)) with
      | some mapped => some mapped
      | none => some (pyTitle (pyStrip s))
    else none
  | _ => none

/-- Mapping used for `brand_name`/`model_name`: no canonical table, so the
title-cased copy is always used. -/
def noMapping (_ : Str) : Option Str := none

/-- `AIAgent._normalize_entities` (agent.py lines 235-285). -/
def normalize_entities (e : RawEntities) : EntityMap :=
  { min_price := parse_price e.min_price
    max_price := parse_price e.max_price
    min_year := parse_year e.min_year
    max_year := parse_year e.max_year
    brand := normalizeStrFilter noMapping e.brand_name
    model := normalizeStrFilter noMapping e.model_name
    engine_type := normalizeStrFilter engineMapping e.engine_type
    body_type := normalizeStrFilter bodyMapping e.body_type
    transmission := normalizeStrFilter transmissionMapping e.transmission
    first_name := e.first_name.map (fun v => pyTitle (pyStrip v.pyStr))
    last_name := e.last_name.map (fun v => pyTitle (pyStrip v.pyStr))
    phone := e.phone_number.map (fun v => normalize_phone v.pyStr)
    desired_car_description := e.desired_car_description.map (fun v => pyStrip v.pyStr)
    is_greeting := some (e.is_greeting.getD false)
    is_reset := some (e.is_reset.getD false)
    is_farewell := some (e.is_farewell.getD false)
    is_list_all := some (e.is_list_all.getD false)
    is_similarity_request := some (e.is_similarity_request.getD false)
    confirmation := e.confirmation }


/-- Catalog item (`models.py` `Car`).  `price` is a `DECIMAL(18,2)` column,
modelled as an exact rational. -/
structure Car where
  id : Nat
  brand : Str
  model : Str
  engine_type : Option Str := none
  body_type : Option Str := none
  transmission : Option Str := none
  year : Option Int := none
  price : ℚ
deriving DecidableEq

/-- Customer lead (`models.py` `CustomerLead`), the fields the agent reads. -/
structure Lead where
  id : Nat
  first_name : Str
  phone : Str
  desired_car_info : Option Str := none
deriving DecidableEq

/-- The `filters` sub-dictionary of the dialogue context.  `_reset_context`
initializes exactly these keys (the bare `price` and `year` slots exist
because `hasattr(Car, ...)` holds for them; the update loop can populate
`year` but the normalizer never emits it, and nothing emits `price`). -/
structure Filters where
  brand : Option Str := none
  model : Option Str := none
  engine_type : Option Str := none
  body_type : Option Str := none
  transmission : Option Str := none
  price : Option Int := none
  year : Option Int := none
  min_price : Option Int := none
  max_price : Option Int := none
  min_year : Option Int := none
  max_year : Option Int := none
deriving DecidableEq

/-- The `asked_questions` set, whose domain is the seven flags of
`FILTER_QUESTIONS`; membership is a boolean per flag. -/
structure AskedQuestions where
  asked_brand : Bool := false
  asked_engine : Bool := false
  asked_body : Bool := false
  asked_price : Bool := false
  asked_transmission : Bool := false
  asked_year : Bool := false
  asked_model : Bool := false
deriving DecidableEq

/-- The dialogue context (`AIAgent._reset_context`).  Response *text* is
presentation-only for the properties below: `last_acknowledged_info` keeps
the joined acknowledgment string the state machine re-reads, while the
rendered `last_response` is omitted — no verified property inspects it. -/
structure Context where
  filters : Filters := {}
  asked_questions : AskedQuestions := {}
  last_question_key : Option Str := none
  search_performed : Bool := false
  results_shown : Bool := false
  last_acknowledged_info : Option Str := none
  customer_id : Option Nat := none
  customer_first_name : Option Str := none
  customer_phone : Option Str := none
  customer_desired_car : Option Str := none
  initial_personalized_greeting_done : Bool := false
  asked_for_customer_info : Bool := false
  last_shown_cars : Option (List Car) := none
  last_shown_target_price : Option ℚ := none
  last_shown_target_model : Option Str := none
  last_shown_target_brand : Option Str := none
  awaiting_model_confirmation : Bool := false
  potential_model_matches : Option (List Car) := none
deriving DecidableEq

/-- Python truthiness of a string. -/
def strTruthy (s : Str) : Bool := !s.isEmpty

/-- Python truthiness of an optional string (`None` and `''` are falsy). -/
def optStrTruthy : Option Str → Bool
  | some s => strTruthy s
  | none => false

/-- Python truthiness of an optional integer (`None` and `0` are falsy). -/
def optIntTruthy : Option Int → Bool
  | some n => decide (n ≠ 0)
  | none => false

/-- Did the merge of entity slot `new` into filter slot `cur` change it?
(One iteration of the filter loop in `_update_context_with_entities`,
lines 360-385: only a present, non-`None`, different value updates.) -/
def slotChanged {α : Type} [DecidableEq α] (cur new : Option α) : Bool :=
  match new with
  | none => false
  | some v => decide (cur ≠ some v)

/-- The merged value of one filter slot. -/
def slotMerge {α : Type} [DecidableEq α] (cur new : Option α) : Option α :=
  match new with
  | none => cur
  | some v => some v

/-- The result of `AIAgent._update_context_with_entities`: the mutated
context, the returned `updated` flag, `self.updated_keys_this_turn`, and the
acknowledged-info parts (in the fixed key order used by this embedding:
first_name, phone, brand, model, engine_type, body_type, transmission,
min_price, max_price, min_year, max_year — the source iterates a Python set,
and every iteration writes a distinct slot, so the outcome is
order-independent except for the listing order of keys and parts). -/
structure UpdateResult where
  ctx : Context
  updated : Bool
  keys : List Str
  acks : List Str
deriving DecidableEq

/-- Filters after the merge loop of `_update_context_with_entities`
(before the brand-change model reset). -/
def mergedFilters (f : Filters) (e : EntityMap) : Filters :=
  { brand := slotMerge f.brand e.brand
    model := slotMerge f.model e.model
    engine_type := slotMerge f.engine_type e.engine_type
    body_type := slotMerge f.body_type e.body_type
    transmission := slotMerge f.transmission e.transmission
    price := f.price
    year := f.year
    min_price := slotMerge f.min_price e.min_price
    max_price := slotMerge f.max_price e.max_price
    min_year := slotMerge f.min_year e.min_year
    max_year := slotMerge f.max_year e.max_year }

/-- `asked_questions` after the merge loop: each changed filter marks its
question flag as answered (min/max price → `asked_price`, min/max year →
`asked_year`). -/
def mergedAsked (a : AskedQuestions) (f : Filters) (e : EntityMap) : AskedQuestions :=
  { asked_brand := a.asked_brand || slotChanged f.brand e.brand
    asked_engine := a.asked_engine || slotChanged f.engine_type e.engine_type
    asked_body := a.asked_body || slotChanged f.body_type e.body_type
    asked_price := a.asked_price || slotChanged f.min_price e.min_price
      || slotChanged f.max_price e.max_price
    asked_transmission := a.asked_transmission || slotChanged f.transmission e.transmission
    asked_year := a.asked_year || slotChanged f.min_year e.min_year
      || slotChanged f.max_year e.max_year
    asked_model := a.asked_model || slotChanged f.model e.model }

/-- Did the customer-first-name block of the update change the context? -/
def firstNameChanged (ctx : Context) (e : EntityMap) : Bool :=
  match e.first_name with
  | some v => decide (ctx.customer_first_name ≠ some v)
  | none => false

/-- Did the customer-phone block change the context?  The source compares
`entities['phone']` — which may itself be `None` — with the stored phone. -/
def phoneChanged (ctx : Context) (e : EntityMap) : Bool :=
  match e.phone with
  | some pv => decide (ctx.customer_phone ≠ pv)
  | none => false

/-- `self.updated_keys_this_turn` of one update call, in this embedding's
fixed iteration order. -/
def updatedKeysOf (ctx : Context) (e : EntityMap) : List Str :=
  (if firstNameChanged ctx e then ["first_name".toList] else [])
    ++ (if phoneChanged ctx e then ["phone".toList] else [])
    ++ (if slotChanged ctx.filters.brand e.brand then ["brand".toList] else [])
    ++ (if slotChanged ctx.filters.model e.model then ["model".toList] else [])
    ++ (if slotChanged ctx.filters.engine_type e.engine_type then ["engine_type".toList] else [])
    ++ (if slotChanged ctx.filters.body_type e.body_type then ["body_type".toList] else [])
    ++ (if slotChanged ctx.filters.transmission e.transmission then ["transmission".toList] else [])
    ++ (if slotChanged ctx.filters.min_price e.min_price then ["min_price".toList] else [])
    ++ (if slotChanged ctx.filters.max_price e.max_price then ["max_price".toList] else [])
    ++ (if slotChanged ctx.filters.min_year e.min_year then ["min_year".toList] else [])
    ++ (if slotChanged ctx.filters.max_year e.max_year then ["max_year".toList] else [])

/-- One acknowledged part: `"<display name>: <value str>"`. -/
def ackPart (disp val : Str) : Str := disp ++ ": ".toList ++ val

/-- Acknowledged-info parts of one update call (filter slots only — the
customer blocks never append parts).  Prices are comma-formatted with a
`" TL"` suffix, years printed plain, strings verbatim (lines 369-376). -/
def ackPartsOf (ctx : Context) (e : EntityMap) : List Str :=
  (if slotChanged ctx.filters.brand e.brand then
      [ackPart "Marka".toList ((e.brand).getD [])] else [])
    ++ (if slotChanged ctx.filters.model e.model then
      [ackPart "Model".toList ((e.model).getD [])] else [])
    ++ (if slotChanged ctx.filters.engine_type e.engine_type then
      [ackPart "Motor Tipi".toList ((e.engine_type).getD [])] else [])
    ++ (if slotChanged ctx.filters.body_type e.body_type then
      [ackPart "Gövde Tipi".toList ((e.body_type).getD [])] else [])
    ++ (if slotChanged ctx.filters.transmission e.transmission then
      [ackPart "Vites Tipi".toList ((e.transmission).getD [])] else [])
    ++ (if slotChanged ctx.filters.min_price e.min_price then
      [ackPart "Min Fiyat".toList (commaFmt ((e.min_price).getD 0) ++ " TL".toList)] else [])
    ++ (if slotChanged ctx.filters.max_price e.max_price then
      [ackPart "Maks Fiyat".toList (commaFmt ((e.max_price).getD 0) ++ " TL".toList)] else [])
    ++ (if slotChanged ctx.filters.min_year e.min_year then
      [ackPart "Min Yıl".toList (intToStr ((e.min_year).getD 0))] else [])
    ++ (if slotChanged ctx.filters.max_year e.max_year then
      [ackPart "Maks Yıl".toList (intToStr ((e.max_year).getD 0))] else [])

/-- The brand-change model reset condition (lines 389-402): the post-merge
brand is truthy and differs from the pre-update brand, and the post-merge
model is not `None`. -/
def brandResetCond (ctx : Context) (e : EntityMap) : Bool :=
  let f := mergedFilters ctx.filters e
  (match f.brand with
   | some b => strTruthy b && decide (some b ≠ ctx.filters.brand)
   | none => false)
    && f.model.isSome

/-- Python `", ".join(parts)`. -/
def joinComma (parts : List Str) : Str := List.intercalate ", ".toList parts

/-- Did any block of the merge loop (customer or filter) report an update? -/
def loopUpdated (ctx : Context) (e : EntityMap) : Bool :=
  firstNameChanged ctx e || phoneChanged ctx e
    || slotChanged ctx.filters.brand e.brand
    || slotChanged ctx.filters.model e.model
    || slotChanged ctx.filters.engine_type e.engine_type
    || slotChanged ctx.filters.body_type e.body_type
    || slotChanged ctx.filters.transmission e.transmission
    || slotChanged ctx.filters.min_price e.min_price
    || slotChanged ctx.filters.max_price e.max_price
    || slotChanged ctx.filters.min_year e.min_year
    || slotChanged ctx.filters.max_year e.max_year

/-- Customer first name after the update. -/
def mergedFirstName (ctx : Context) (e : EntityMap) : Option Str :=
  match e.first_name with
  | some v => some v
  | none => ctx.customer_first_name

/-- Customer phone after the update (a present `phone` key overwrites even
with value `None`). -/
def mergedPhone (ctx : Context) (e : EntityMap) : Option Str :=
  match e.phone with
  | some pv => pv
  | none => ctx.customer_phone

/-- `AIAgent._update_context_with_entities` (agent.py lines 339-413):
an empty mapping short-circuits (leaving even `last_acknowledged_info`
untouched); otherwise customer fields and filter slots are merged, changed
filters are acknowledged and their question flags marked answered, a truthy
brand change clears `model` and revokes its flag, and on any update the
acknowledgment is stored and `search_performed`/`results_shown` reset;
on no update the acknowledgment is cleared. -/
def update_context (ctx : Context) (e : EntityMap) : UpdateResult :=
  if e = {} then { ctx := ctx, updated := false, keys := [], acks := [] }
  else
    let f1 := mergedFilters ctx.filters e
    let a1 := mergedAsked ctx.asked_questions ctx.filters e
    let rst := brandResetCond ctx e
    let f2 := if rst then { f1 with model := none } else f1
    let a2 := if rst then { a1 with asked_model := false } else a1
    let keys := updatedKeysOf ctx e
    let acks := ackPartsOf ctx e
    let updated := loopUpdated ctx e || rst
    if updated then
      { ctx := { ctx with
          filters := f2
          asked_questions := a2
          customer_first_name := mergedFirstName ctx e
          customer_phone := mergedPhone ctx e
          last_acknowledged_info :=
            if acks ≠ [] then some (joinComma acks) else none
          search_performed := false
          results_shown := false }
        updated := true, keys := keys, acks := acks }
    else
      { ctx := { ctx with
          customer_first_name := mergedFirstName ctx e
          customer_phone := mergedPhone ctx e
          last_acknowledged_info := none }
        updated := false, keys := keys, acks := acks }

/-- The set of filled trigger fields/ranges built by `AIAgent._should_search`
(agent.py lines 415-432).  `SEARCH_TRIGGER_FIELDS` is
`{'brand','model','engine_type','body_type','transmission','year'}` (line 48)
and every member passes the `hasattr(Car, key)` check, as do `price`/`year`
for the range checks. -/
def filledTriggerFields (f : Filters) : List Str :=
  (if f.brand.isSome then ["brand".toList] else [])
    ++ (if f.model.isSome then ["model".toList] else [])
    ++ (if f.engine_type.isSome then ["engine_type".toList] else [])
    ++ (if f.body_type.isSome then ["body_type".toList] else [])
    ++ (if f.transmission.isSome then ["transmission".toList] else [])
    ++ (if f.year.isSome then ["year".toList] else [])
    ++ (if f.min_price.isSome || f.max_price.isSome then ["price_range".toList] else [])
    ++ (if f.min_year.isSome || f.max_year.isSome then ["year_range".toList] else [])

/-- `AIAgent._should_search`: search is allowed iff the set of filled trigger
fields/ranges is non-empty (`bool(filled_trigger_fields)`). -/
def should_search (ctx : Context) : Bool :=
  !(filledTriggerFields ctx.filters).isEmpty

/-- The key selected by `AIAgent._get_next_question` (agent.py lines
434-476): first unanswered question in priority order brand(1), engine(2),
body(3), price range(4), transmission(5), year range(6),
model-given-brand(7). -/
def nextQuestionKey (f : Filters) (a : AskedQuestions) : Option Str :=
  if !a.asked_brand && f.brand.isNone then some "brand".toList
  else if !a.asked_engine && f.engine_type.isNone then some "engine_type".toList
  else if !a.asked_body && f.body_type.isNone then some "body_type".toList
  else if !a.asked_price && f.min_price.isNone && f.max_price.isNone then
    some "price_range".toList
  else if !a.asked_transmission && f.transmission.isNone then some "transmission".toList
  else if !a.asked_year && f.min_year.isNone && f.max_year.isNone then
    some "year_range".toList
  else if !a.asked_model && f.brand.isSome && f.model.isNone then some "model".toList
  else none

/-- `AIAgent._get_next_question`'s state effect: it stores the selected key
(or `None`) in `last_question_key`; flags are only marked by the caller. -/
def getNextQuestionCtx (ctx : Context) : Context :=
  { ctx with last_question_key := nextQuestionKey ctx.filters ctx.asked_questions }

/-- The dialogue actions of `AIAgent.process_message` /
`AIAgent._execute_action` (the string-keyed `action` variable), after the
executor's own reassignments. -/
inductive TurnAction where
  | handleModelConfirmation
  | findSimilar
  | similarityMissing
  | reset
  | farewell
  | greeting
  | listAll
  | search
  | ask
  | clarifyModel
  | wait
deriving DecidableEq

/-- `db_utils.find_customer_lead_by_phone`: strip non-digits from the query
phone and return the first lead with that exact stored phone. -/
def find_customer_lead_by_phone (leads : List Lead) (phone : Str) : Option Lead :=
  (leads.filter (fun l => l.phone = phone.filter Char.isDigit)).head?

/-- The customer-identification block of `process_message` (agent.py lines
703-719): a truthy extracted phone that differs from the session phone first
forgets any resolved customer, then either adopts a matching lead or records
the new phone (and, when truthy, the extracted first name). -/
def customerIdent (ctx : Context) (e : EntityMap) (leads : List Lead) : Context :=
  match e.phone.getD none with
  | some p =>
    if strTruthy p && decide (some p ≠ ctx.customer_phone) then
      let ctx1 :=
        if ctx.customer_id.isSome then
          { ctx with
            customer_id := none
            customer_first_name := none
            customer_desired_car := none
            initial_personalized_greeting_done := false }
        else ctx
      match find_customer_lead_by_phone leads p with
      | some lead =>
        { ctx1 with
          customer_id := some lead.id
          customer_first_name := some lead.first_name
          customer_phone := some lead.phone
          customer_desired_car := lead.desired_car_info }
      | none =>
        let ctx2 := { ctx1 with customer_phone := some p }
        if optStrTruthy e.first_name then
          { ctx2 with customer_first_name := e.first_name }
        else ctx2
    else ctx
  | none => ctx

/-- `is_context_empty` of `_handle_immediate_actions` (line 880): no truthy
value among the non-`None` filter values. -/
def contextFiltersEmpty (f : Filters) : Bool :=
  !(optStrTruthy f.brand || optStrTruthy f.model || optStrTruthy f.engine_type
    || optStrTruthy f.body_type || optStrTruthy f.transmission
    || optIntTruthy f.price || optIntTruthy f.year
    || optIntTruthy f.min_price || optIntTruthy f.max_price
    || optIntTruthy f.min_year || optIntTruthy f.max_year)

/-- `has_other_filters` of the `list_all` branch (lines 884-885): a truthy
value among the extracted filter keys this turn. -/
def entitiesHaveFilters (e : EntityMap) : Bool :=
  optStrTruthy e.brand || optStrTruthy e.model || optStrTruthy e.engine_type
    || optStrTruthy e.body_type || optStrTruthy e.transmission
    || optIntTruthy e.min_price || optIntTruthy e.max_price
    || optIntTruthy e.min_year || optIntTruthy e.max_year

/-- `AIAgent._handle_immediate_actions` (agent.py lines 874-893), as the
action it takes (`none` = `action_taken` stays false and the caller falls
through to the normal flow). -/
def immediateAction (ctx : Context) (e : EntityMap) : Option TurnAction :=
  if e.is_reset.getD false then some .reset
  else if e.is_farewell.getD false then some .farewell
  else if e.is_greeting.getD false && !ctx.initial_personalized_greeting_done then
    if contextFiltersEmpty ctx.filters && ctx.customer_id.isNone then some .greeting
    else none
  else if e.is_list_all.getD false then
    if !entitiesHaveFilters e then some .listAll else none
  else none

/-- The `active_filters` emptiness test of the `search` executor branch
(line 912-914): every filter slot `None`. -/
def activeFiltersEmpty (f : Filters) : Bool :=
  f.brand.isNone && f.model.isNone && f.engine_type.isNone && f.body_type.isNone
    && f.transmission.isNone && f.price.isNone && f.year.isNone
    && f.min_price.isNone && f.max_price.isNone && f.min_year.isNone && f.max_year.isNone

/-- The executor's reassignment of a selected `search` (agent.py lines
911-914): a truthy `model` without a truthy `brand` redirects to
`clarify_model`; no active filters redirects to `ask`. -/
def executedSearchAction (f : Filters) : TurnAction :=
  if optStrTruthy f.model && !optStrTruthy f.brand then .clarifyModel
  else if activeFiltersEmpty f then .ask
  else .search

/-- The normal dialogue flow of `process_message` (agent.py lines 734-770):
merge entities, check the model-without-brand clarification condition, then
determine and (for `search`) redirect the action.  Returns the executed
action. -/
def normalFlowAction (ctx : Context) (e : EntityMap) : TurnAction :=
  let r := update_context ctx e
  let f := r.ctx.filters
  if optStrTruthy f.model && !optStrTruthy f.brand
      && ("model".toList ∈ r.keys || !r.updated) then .clarifyModel
  else
    let sel : TurnAction :=
      if r.updated then (if should_search r.ctx then .search else .ask)
      else if e.confirmation = some "yes".toList then
        (if r.ctx.results_shown then .wait
         else if should_search r.ctx then .search else .ask)
      else if e.confirmation = some "no".toList then
        (if r.ctx.results_shown then .wait else .ask)
      else if should_search r.ctx && !r.ctx.search_performed then .search
      else .ask
    if sel = .search then executedSearchAction f else sel

/-- The per-turn action of `AIAgent.process_message` (agent.py lines
652-776), i.e. which executor branch runs: the clarification intercept,
then the similarity intercept, then customer identification, then immediate
actions, then the normal flow. -/
def processTurnAction (ctx : Context) (e : EntityMap) (leads : List Lead) : TurnAction :=
  if ctx.awaiting_model_confirmation then .handleModelConfirmation
  else if e.is_similarity_request.getD false then
    if ctx.results_shown then
      if ctx.last_shown_target_price.isSome && optStrTruthy ctx.last_shown_target_model
          && optStrTruthy ctx.last_shown_target_brand then .findSimilar
      else .similarityMissing
    else .similarityMissing
  else
    let ctx1 := customerIdent ctx e leads
    if e.is_reset.getD false || e.is_farewell.getD false
        || (e.is_greeting.getD false && !ctx1.initial_personalized_greeting_done)
        || e.is_list_all.getD false then
      match immediateAction ctx1 e with
      | some a => a
      | none => normalFlowAction ctx1 e
    else normalFlowAction ctx1 e

/-- `AIAgent._execute_action` on `handle_model_confirmation` (agent.py lines
895-906 and 991-1040): the similarity anchor is cleared; on `yes` with a
truthy stored candidate list the first candidate's brand/model are adopted
and both question flags marked answered, then `_get_next_question` runs for
the follow-up; on `no` or anything else the ambiguous model is cleared;
exiting always clears the awaiting flag and the candidate list. -/
def handle_model_confirmation (ctx : Context) (e : EntityMap) : Context :=
  let ctx0 := { ctx with
    last_shown_cars := none
    last_shown_target_price := none
    last_shown_target_model := none
    last_shown_target_brand := none }
  let pm := ctx0.potential_model_matches
  let ctx1 :=
    if e.confirmation = some "yes".toList ∧ (pm.getD []) ≠ [] then
      match pm.getD [] with
      | car :: _ =>
        let cA := { ctx0 with
          filters := { ctx0.filters with
            brand := some car.brand
            model := some car.model }
          asked_questions := { ctx0.asked_questions with
            asked_brand := true
            asked_model := true } }
        getNextQuestionCtx cA
      | [] => ctx0
    else
      { ctx0 with filters := { ctx0.filters with model := none } }
  { ctx1 with awaiting_model_confirmation := false, potential_model_matches := none }

/-- One stored conversation message (`memory_utils.MemoryManager`). -/
structure Msg where
  role : Str
  content : Str
deriving DecidableEq

/-- `MemoryManager.add_message` (memory_utils.py lines 30-50) acting on the
stored list, with `maxMessages = max_turns * 2` fixed at construction:
empty content is skipped; otherwise the message is appended and, when the
list exceeds the bound, the oldest excess entries are dropped. -/
def add_message (maxMessages : Nat) (memory : List Msg) (role content : Str) : List Msg :=
  if content.isEmpty then memory
  else
    let m := memory ++ [{ role := role, content := content }]
    if m.length > maxMessages then m.drop (m.length - maxMessages) else m

/-- A whole sequence of `add_message` calls on a fresh
`MemoryManager(max_turns)` (whose `__init__` sets `max_messages = max_turns * 2`
and `memory = []`). -/
def runAddMessages (max_turns : Nat) (calls : List (Str × Str)) : List Msg :=
  calls.foldl (fun mem rc => add_message (max_turns * 2) mem rc.1 rc.2) []

/-- The exact value of the Python float literal `0.15` (the tolerance the
agent passes to `find_similar_priced_cars`, agent.py line 964): the IEEE-754
double nearest to 0.15 is 5404319552844595·2⁻⁵⁵, and
`decimal.Decimal(0.15)` converts it exactly.  (The subsequent
`Decimal(1) ± Decimal(tol)` and the products by the target price are
computed under Python's default 28-significant-digit decimal context; that
final rounding perturbs the bounds by less than 10⁻²⁰, far less than the
10⁻² granularity of the `DECIMAL(18,2)` price column and than the ≈3.3·10⁻⁹
distance of the bounds from the round numbers below, so the exact rational
arithmetic used here classifies every representable price identically.) -/
def floatVal015 : ℚ := 5404319552844595 / 2 ^ 55

/-- Does `car` survive the price-window filter of
`db_utils.find_similar_priced_cars` (lines 264-271)? -/
def inPriceWindow (target tol : ℚ) (car : Car) : Bool :=
  target * (1 - tol) ≤ car.price && car.price ≤ target * (1 + tol)

/-- Does `car` survive the brand/model exclusion filter (lines 274-282)?
Both given and truthy → exclude the exact (case-insensitive) brand+model
pair; only a model → exclude that model across brands. -/
def survivesExclusion (exclude_brand exclude_model : Option Str) (car : Car) : Bool :=
  if optStrTruthy exclude_brand && optStrTruthy exclude_model then
    !(pyLower car.brand = pyLower (exclude_brand.getD [])
      && pyLower car.model = pyLower (exclude_model.getD []))
  else if optStrTruthy exclude_model then
    decide (pyLower car.model ≠ pyLower (exclude_model.getD []))
  else true

/-- The candidate set admitted by `find_similar_priced_cars` before sorting
and the limit. -/
def similarCandidates (db : List Car) (target : ℚ)
    (exclude_brand exclude_model : Option Str) (tol : ℚ) : List Car :=
  (db.filter (inPriceWindow target tol)).filter (survivesExclusion exclude_brand exclude_model)

/-- `ORDER BY abs(price - target)` (line 287). -/
def closerTo (target : ℚ) (a b : Car) : Prop :=
  |a.price - target| ≤ |b.price - target|

instance (target : ℚ) : DecidableRel (closerTo target) :=
  fun a b => inferInstanceAs (Decidable (_ ≤ _))

/-- `db_utils.find_similar_priced_cars` (db_utils.py lines 239-295) over a
list model of the `cars` table: filter to the tolerance window around the
target price, drop the excluded brand+model, order by absolute price
distance, and cut to `limit`. -/
def find_similar_priced_cars (db : List Car) (target : ℚ)
    (exclude_brand exclude_model : Option Str) (tol : ℚ) (limit : Nat) : List Car :=
  ((similarCandidates db target exclude_brand exclude_model tol).insertionSort
    (closerTo target)).take limit

/-- Catalog fixture for the similarity claim: a car priced exactly at the
claimed lower bound 510000, with brand and model different from the
anchor's. -/
def car510 : Car :=
  { id := 2, brand := "Honda".toList, model := "Civic".toList, price := 510000 }

/-- Catalog fixture: a car at exactly the anchor price, different from the
anchor's brand and model. -/
def car600 : Car :=
  { id := 3, brand := "Honda".toList, model := "Civic".toList, price := 600000 }

/-- Dialogue-context fixture: a model is stored without a brand, the engine
is not awaiting confirmation. -/
def ctxModelOnly : Context := { filters := { model := some "Corolla".toList } }

/-- Entity fixture: a turn carrying only a farewell intent. -/
def entFarewell : EntityMap := { is_farewell := some true }

/-- Does the optional new value, when present, equal the stored optional
value (wrapped in `some`)? -/
def optMatches {α : Type} [DecidableEq α] (cur new : Option α) : Bool :=
  match new with
  | some v => decide (cur = some v)
  | none => true

/-- Does the optional new value, when present, equal the stored value? -/
def optValMatches {α : Type} [DecidableEq α] (cur : α) (new : Option α) : Bool :=
  match new with
  | some v => decide (cur = v)
  | none => true

/-- Specification predicate for the idempotence claim: every filter and
customer value present in the normalized mapping equals the value already
stored in the context. -/
def entitiesMatchContext (ctx : Context) (e : EntityMap) : Bool :=
  optMatches ctx.customer_first_name e.first_name
    && optValMatches ctx.customer_phone e.phone
    && optMatches ctx.filters.brand e.brand
    && optMatches ctx.filters.model e.model
    && optMatches ctx.filters.engine_type e.engine_type
    && optMatches ctx.filters.body_type e.body_type
    && optMatches ctx.filters.transmission e.transmission
    && optMatches ctx.filters.min_price e.min_price
    && optMatches ctx.filters.max_price e.max_price
    && optMatches ctx.filters.min_year e.min_year
    && optMatches ctx.filters.max_year e.max_year

/-- A string with no decimal digit. -/
abbrev noDigit (l : Str) : Prop := ∀ c ∈ l, c.isDigit = false

theorem toLower_isDigit (c : Char) (h : (Char.toLower c).isDigit = true) :
    c.isDigit = true := by
  simp only [Char.toLower] at h
  by_cases hb : c.toNat ≥ 65 ∧ c.toNat ≤ 90
  · rw [if_pos hb] at h
    exfalso
    obtain ⟨h1, h2⟩ := hb
    interval_cases hn : c.toNat <;> exact absurd h (by decide)
  · rw [if_neg hb] at h
    exact h

theorem noDigit_pyLower {s : Str} (h : noDigit s) : noDigit (pyLower s) := by
  intro c hc
  rcases List.mem_map.mp hc with ⟨c0, hc0, rfl⟩
  by_contra hd
  exact absurd (h c0 hc0) (by simp [toLower_isDigit c0 (by simpa using hd)])

theorem mem_pyReplaceDelAux (pat : Str) :
    ∀ (fuel : Nat) (l : Str) (c : Char), c ∈ pyReplaceDelAux pat fuel l → c ∈ l := by
  intro fuel
  induction fuel with
  | zero =>
    intro l c h
    cases l with
    | nil => simpa [pyReplaceDelAux] using h
    | cons a rest => simpa [pyReplaceDelAux] using h
  | succ n ih =>
    intro l c h
    cases l with
    | nil => simpa [pyReplaceDelAux] using h
    | cons a rest =>
      rw [pyReplaceDelAux] at h
      split at h
      · exact List.mem_cons_of_mem a (List.mem_of_mem_drop (ih _ _ h))
      · rcases List.mem_cons.mp h with h1 | h2
        · exact h1 ▸ List.mem_cons_self a rest
        · exact List.mem_cons_of_mem a (ih _ _ h2)

theorem noDigit_pyReplaceDel {pat s : Str} (h : noDigit s) : noDigit (pyReplaceDel pat s) :=
  fun c hc => h c (mem_pyReplaceDelAux pat s.length s c hc)

theorem mem_pyStrip {s : Str} {c : Char} (hc : c ∈ pyStrip s) : c ∈ s := by
  unfold pyStrip at hc
  rw [List.mem_reverse] at hc
  have h1 := (List.dropWhile_sublist (l := (s.dropWhile pyIsSpace).reverse)
    (p := pyIsSpace)).mem hc
  rw [List.mem_reverse] at h1
  exact (List.dropWhile_sublist (l := s) (p := pyIsSpace)).mem h1

theorem noDigit_pyStrip {s : Str} (h : noDigit s) : noDigit (pyStrip s) :=
  fun c hc => h c (mem_pyStrip hc)

theorem noDigit_filter {s : Str} {p : Char → Bool} (h : noDigit s) : noDigit (s.filter p) :=
  fun c hc => h c (List.mem_of_mem_filter hc)

theorem extractFirstNum_eq_none {l : Str} (h : noDigit l) : extractFirstNum l = none := by
  induction l with
  | nil => rfl
  | cons c rest ih =>
    rw [extractFirstNum]
    rw [if_neg (by simp [h c (List.mem_cons_self c rest)])]
    exact ih (fun d hd => h d (List.mem_cons_of_mem c hd))

theorem parsePriceStr_none_of_noDigit (s : Str) (h : noDigit s) : parsePriceStr s = none := by
  simp only [parsePriceStr]
  have h3 : noDigit (pyStrip (((pyReplaceDel ['t', 'r', 'y'] (pyReplaceDel ['t', 'l']
      (pyLower s)))).filter (fun c => !(c = ',' || c = '.')))) :=
    noDigit_pyStrip (noDigit_filter (noDigit_pyReplaceDel (noDigit_pyReplaceDel
      (noDigit_pyLower h))))
  split
  · rw [extractFirstNum_eq_none (noDigit_pyStrip (noDigit_pyReplaceDel h3))]
    rfl
  · split
    · rw [extractFirstNum_eq_none (noDigit_pyStrip (noDigit_pyReplaceDel
        (noDigit_pyReplaceDel h3)))]
      rfl
    · rw [extractFirstNum_eq_none (noDigit_pyStrip h3)]
      rfl

/-- Claim C4, counterexample: the claim states that the string "2.5 milyon"
normalizes to 2500000, but `_parse_price` first deletes the decimal point as
a thousands separator, extracts 25, and multiplies by 1,000,000, yielding
25000000. -/
theorem C4_counterexample :
    parse_price (some (.str "2.5 milyon".toList)) = some 25000000 ∧
      parse_price (some (.str "2.5 milyon".toList)) ≠ some 2500000 := by
  constructor
  · decide
  · decide

/-- Claim C4 (amended): price normalization maps "500 bin TL" to 500000 and
"2.5 milyon" to 25000000 (the separator stripping happens before multiplier
application, so the decimal point is simply deleted); in general, for a
string input it strips currency tokens and thousands separators, applies the
detected multiplier word to the leading extracted integer, and returns null
when the string contains no digits. -/
theorem C4_theorem :
    parse_price (some (.str "500 bin TL".toList)) = some 500000 ∧
      parse_price (some (.str "2.5 milyon".toList)) = some 25000000 ∧
      ∀ s : Str, noDigit s → parse_price (some (.str s)) = none :=
  ⟨by decide, by decide, fun s h => parsePriceStr_none_of_noDigit s h⟩

/-- Witness for C4: the digit-free clause applied at the concrete digit-free
string "bin TL". -/
theorem C4_witness : parse_price (some (.str "bin TL".toList)) = none :=
  C4_theorem.2.2 "bin TL".toList (by decide)

/-- Claim C5, counterexample: the claim states that a phone string whose
digit count is outside [10, 13] results in *no* `phone` field in the
normalizer's output, but the source unconditionally writes
`normalized['phone'] = self._normalize_phone(...)` whenever the raw
`phone_number` key is present, so the field appears holding null. -/
theorem C5_counterexample :
    (normalize_entities { phone_number := some (.str "12345".toList) }).phone = some none ∧
      (normalize_entities { phone_number := some (.str "12345".toList) }).phone ≠ none := by
  constructor
  · decide
  · decide

/-- Claim C5 (amended): entity normalization never raises (it is a total
function here) and every *filter* field whose value cannot be parsed or
mapped is absent from the output; the `phone` field is the exception: when
`phone_number` was extracted but its digit count after stripping non-digits
falls outside [10, 13], the output carries a `phone` field explicitly set to
null (it is absent only when `phone_number` itself was absent). -/
theorem C5_theorem :
    (∀ (raw : RawEntities) (v : RawVal), raw.phone_number = some v →
        ¬(10 ≤ ((RawVal.pyStr v).filter Char.isDigit).length ∧
            ((RawVal.pyStr v).filter Char.isDigit).length ≤ 13) →
        (normalize_entities raw).phone = some none) ∧
      (∀ raw : RawEntities, raw.phone_number = none →
        (normalize_entities raw).phone = none) ∧
      (∀ raw : RawEntities, parse_price raw.min_price = none →
        (normalize_entities raw).min_price = none) ∧
      (∀ (raw : RawEntities) (s : Str), raw.brand_name = some (.str s) →
        pyStrip s = [] → (normalize_entities raw).brand = none) := by
  refine ⟨?_, ?_, ?_, ?_⟩
  · intro raw v hv hbad
    simp [normalize_entities, hv, normalize_phone, if_neg hbad]
  · intro raw hv
    simp [normalize_entities, hv]
  · intro raw hp
    simp [normalize_entities, hp]
  · intro raw s hb hempty
    simp [normalize_entities, normalizeStrFilter, hb, hempty]

/-- Witness for C5: the amended behaviour at concrete inputs — a 5-digit
phone yields a present-but-null `phone`, a missing phone yields no `phone`
field, an unparseable price and a whitespace brand yield no field. -/
theorem C5_witness :
    (normalize_entities { phone_number := some (.str "12345".toList) }).phone = some none ∧
      (normalize_entities ({} : RawEntities)).phone = none ∧
      (normalize_entities { min_price := some (.str "yok".toList) }).min_price = none ∧
      (normalize_entities { brand_name := some (.str "  ".toList) }).brand = none :=
  ⟨C5_theorem.1 _ _ rfl (by decide), C5_theorem.2.1 {} rfl,
    C5_theorem.2.2.1 { min_price := some (.str "yok".toList) } (by decide),
    C5_theorem.2.2.2 _ "  ".toList rfl (by decide)⟩

theorem add_message_length_le (mm : Nat) (mem : List Msg) (r c : Str)
    (h : mem.length ≤ mm) : (add_message mm mem r c).length ≤ mm := by
  simp only [add_message]
  split
  · exact h
  · split
    · next hgt =>
      rw [List.length_drop]
      simp only [List.length_append, List.length_singleton] at hgt ⊢
      omega
    · next hle =>
      simp only [List.length_append, List.length_singleton, gt_iff_lt, not_lt] at hle ⊢
      omega

theorem foldl_add_message_le (mm : Nat) :
    ∀ (calls : List (Str × Str)) (mem : List Msg), mem.length ≤ mm →
      (calls.foldl (fun m rc => add_message mm m rc.1 rc.2) mem).length ≤ mm := by
  intro calls
  induction calls with
  | nil => intro mem h; exact h
  | cons rc rest ih =>
    intro mem h
    exact ih _ (add_message_length_le mm mem rc.1 rc.2 h)

/-- Claim C8: the memory store is a bounded FIFO — any sequence of
`add_message` calls on a fresh `MemoryManager(max_turns = N)` leaves at most
`2 × N` stored entries, and each (non-skipped) addition produces a suffix of
the previous list with the new message appended, i.e. only the oldest
entries are removed and the order of the remaining ones is preserved. -/
theorem C8_theorem :
    (∀ (N : Nat) (calls : List (Str × Str)), (runAddMessages N calls).length ≤ 2 * N) ∧
      (∀ (mm : Nat) (mem : List Msg) (r c : Str), c ≠ [] →
        add_message mm mem r c <:+ mem ++ [{ role := r, content := c }]) := by
  constructor
  · intro N calls
    have h := foldl_add_message_le (N * 2) calls [] (by simp)
    rw [runAddMessages] at *
    omega
  · intro mm mem r c hc
    simp only [add_message, List.isEmpty_eq_true, hc, if_false]
    split
    · exact List.drop_suffix _ _
    · exact List.suffix_refl _

/-- Witness for C8 at concrete inputs: two additions on `max_turns = 1`
stay within two entries, and a bounded addition keeps a suffix. -/
theorem C8_witness :
    (runAddMessages 1 [("user".toList, "merhaba".toList),
        ("assistant".toList, "selam".toList)]).length ≤ 2 * 1 ∧
      add_message 2 [{ role := "user".toList, content := "merhaba".toList }]
          "assistant".toList "selam".toList <:+
        [{ role := "user".toList, content := "merhaba".toList }] ++
          [{ role := "assistant".toList, content := "selam".toList }] :=
  ⟨C8_theorem.1 1 _, C8_theorem.2 2 _ "assistant".toList "selam".toList (by decide)⟩

/-- Claim C3, counterexample: the claim's "if and only if" omits the bare
`year` filter slot — `SEARCH_TRIGGER_FIELDS` (agent.py line 48) contains
`'year'` and the context's filter dictionary carries a `year` key, so a
filter state whose only non-null entry is `year` satisfies the search
predicate although every field enumerated by the claim is null. -/
theorem C3_counterexample :
    should_search { filters := { year := some 2020 } } = true ∧
      ({ year := some 2020 } : Filters).brand = none ∧
      ({ year := some 2020 } : Filters).model = none ∧
      ({ year := some 2020 } : Filters).engine_type = none ∧
      ({ year := some 2020 } : Filters).body_type = none ∧
      ({ year := some 2020 } : Filters).transmission = none ∧
      ({ year := some 2020 } : Filters).min_price = none ∧
      ({ year := some 2020 } : Filters).max_price = none ∧
      ({ year := some 2020 } : Filters).min_year = none ∧
      ({ year := some 2020 } : Filters).max_year = none := by
  decide

/-- Claim C3 (amended): the search-permission predicate returns true iff at
least one of brand, model, engine_type, body_type, transmission, *or the
vestigial bare `year` slot* is non-null, or a price bound, or a year bound
is non-null; in particular `{engine_type: "Elektrik"}` alone is searchable
and the empty filter set is not. -/
theorem C3_theorem :
    (∀ ctx : Context, should_search ctx = true ↔
        (ctx.filters.brand ≠ none ∨ ctx.filters.model ≠ none ∨
          ctx.filters.engine_type ≠ none ∨ ctx.filters.body_type ≠ none ∨
          ctx.filters.transmission ≠ none ∨ ctx.filters.year ≠ none ∨
          ctx.filters.min_price ≠ none ∨ ctx.filters.max_price ≠ none ∨
          ctx.filters.min_year ≠ none ∨ ctx.filters.max_year ≠ none)) ∧
      should_search { filters := { engine_type := some "Elektrik".toList } } = true ∧
      should_search {} = false := by
  refine ⟨?_, by decide, by decide⟩
  intro ctx
  simp only [should_search, filledTriggerFields, Bool.not_eq_true', List.isEmpty_eq_false,
    ne_eq, List.append_eq_nil, ite_eq_right_iff, List.cons_ne_nil, imp_false, not_and,
    Bool.or_eq_true, Option.isSome_iff_ne_none, not_not]
  tauto

theorem update_context_keys (ctx : Context) (e : EntityMap) (hne : e ≠ {}) :
    (update_context ctx e).keys = updatedKeysOf ctx e := by
  simp only [update_context, if_neg hne]
  split <;> rfl

theorem update_context_acks (ctx : Context) (e : EntityMap) (hne : e ≠ {}) :
    (update_context ctx e).acks = ackPartsOf ctx e := by
  simp only [update_context, if_neg hne]
  split <;> rfl

theorem slotChanged_false {α : Type} [DecidableEq α] {cur new : Option α}
    (h : optMatches cur new = true) : slotChanged cur new = false := by
  cases new <;> simp_all [slotChanged, optMatches]

theorem slotMerge_self {α : Type} [DecidableEq α] {cur new : Option α}
    (h : optMatches cur new = true) : slotMerge cur new = cur := by
  cases new <;> simp_all [slotMerge, optMatches]

/-- Claim C2: for every context in which `filters.model` is non-null, a
context update that sets `filters.brand` to a (truthy) value different from
the previous brand leaves `filters.model` null and removes the model
question's asked flag.  The truthiness hypothesis `strTruthy b` reflects
that normalized brand values are non-empty strings (the normalizer only
emits title-cased non-empty strips). -/
theorem C2_theorem (ctx : Context) (e : EntityMap) (b m : Str)
    (hm : ctx.filters.model = some m)
    (hb : e.brand = some b) (hbt : strTruthy b = true)
    (hdiff : some b ≠ ctx.filters.brand) :
    (update_context ctx e).ctx.filters.model = none ∧
      (update_context ctx e).ctx.asked_questions.asked_model = false := by
  have hne : e ≠ ({} : EntityMap) := by
    intro hh
    rw [hh] at hb
    exact Option.noConfusion hb
  have hrst : brandResetCond ctx e = true := by
    simp only [brandResetCond, mergedFilters, slotMerge, hb]
    cases hm' : e.model <;> simp [hm, hbt, hdiff]
  simp only [update_context, if_neg hne, hrst, Bool.or_true, if_true]
  simp [hrst]

/-- Witness for C2: a stored Toyota Corolla context updated with the brand
Honda clears the model and its asked flag. -/
theorem C2_witness :
    (update_context
        { filters := { brand := some "Toyota".toList, model := some "Corolla".toList }
          asked_questions := { asked_model := true } }
        { brand := some "Honda".toList }).ctx.filters.model = none ∧
      (update_context
        { filters := { brand := some "Toyota".toList, model := some "Corolla".toList }
          asked_questions := { asked_model := true } }
        { brand := some "Honda".toList }).ctx.asked_questions.asked_model = false :=
  C2_theorem _ _ "Honda".toList "Corolla".toList rfl rfl (by decide) (by decide)

/-- Claim C10: when one update supplies both a (truthy) brand different from
the stored brand and a model different from the stored model, the post-update
`filters.model` is null even though `model` was counted among the turn's
updated keys and acknowledged. -/
theorem C10_theorem (ctx : Context) (e : EntityMap) (b m : Str)
    (hb : e.brand = some b) (hbt : strTruthy b = true) (hbdiff : some b ≠ ctx.filters.brand)
    (hm : e.model = some m) (hmdiff : some m ≠ ctx.filters.model) :
    (update_context ctx e).ctx.filters.model = none ∧
      "model".toList ∈ (update_context ctx e).keys ∧
      ackPart "Model".toList m ∈ (update_context ctx e).acks := by
  have hne : e ≠ ({} : EntityMap) := by
    intro hh
    rw [hh] at hb
    exact Option.noConfusion hb
  have hrst : brandResetCond ctx e = true := by
    simp only [brandResetCond, mergedFilters, slotMerge, hb, hm]
    simp [hbt, hbdiff]
  have hchgM : slotChanged ctx.filters.model e.model = true := by
    have hnm : ctx.filters.model ≠ some m := fun hh => hmdiff hh.symm
    simp [slotChanged, hm, hnm]
  refine ⟨?_, ?_, ?_⟩
  · simp only [update_context, if_neg hne, hrst, Bool.or_true, if_true]
  · rw [update_context_keys ctx e hne]
    simp [updatedKeysOf, hchgM, List.mem_append]
  · rw [update_context_acks ctx e hne]
    have hchgM2 : slotChanged ctx.filters.model (some m) = true := hm ▸ hchgM
    simp [ackPartsOf, hm, hchgM2, List.mem_append]

/-- Witness for C10: a single mapping carrying brand Honda and model Civic
against a stored Toyota context — the model is cleared by the brand-change
rule although it was updated and acknowledged this very turn. -/
theorem C10_witness :
    (update_context { filters := { brand := some "Toyota".toList } }
        { brand := some "Honda".toList, model := some "Civic".toList }).ctx.filters.model
        = none ∧
      "model".toList ∈ (update_context { filters := { brand := some "Toyota".toList } }
        { brand := some "Honda".toList, model := some "Civic".toList }).keys ∧
      ackPart "Model".toList "Civic".toList ∈
        (update_context { filters := { brand := some "Toyota".toList } }
          { brand := some "Honda".toList, model := some "Civic".toList }).acks :=
  C10_theorem _ _ "Honda".toList "Civic".toList rfl (by decide) (by decide) rfl (by decide)

/-- Claim C9: the context update is idempotent on matching input — for a
normalized-entity mapping every one of whose filter and customer values
equals the stored value, the update returns `updated = false`, leaves
`filters`, `asked_questions`, `search_performed` and `results_shown`
unchanged, and clears the acknowledgment text. -/
theorem C9_theorem (ctx : Context) (raw : RawEntities)
    (h : entitiesMatchContext ctx (normalize_entities raw) = true) :
    (update_context ctx (normalize_entities raw)).updated = false ∧
      (update_context ctx (normalize_entities raw)).ctx.filters = ctx.filters ∧
      (update_context ctx (normalize_entities raw)).ctx.asked_questions
        = ctx.asked_questions ∧
      (update_context ctx (normalize_entities raw)).ctx.search_performed
        = ctx.search_performed ∧
      (update_context ctx (normalize_entities raw)).ctx.results_shown
        = ctx.results_shown ∧
      (update_context ctx (normalize_entities raw)).ctx.last_acknowledged_info = none := by
  have hne : normalize_entities raw ≠ ({} : EntityMap) := by
    intro hh
    have : (normalize_entities raw).is_greeting = none := by rw [hh]
    exact Option.noConfusion this
  simp only [entitiesMatchContext, Bool.and_eq_true] at h
  obtain ⟨⟨⟨⟨⟨⟨⟨⟨⟨⟨hfn, hph⟩, hbr⟩, hmo⟩, hen⟩, hbo⟩, htr⟩, hmp⟩, hxp⟩, hmy⟩, hxy⟩ := h
  have hFN : firstNameChanged ctx (normalize_entities raw) = false := by
    simp only [firstNameChanged]
    simp only [optMatches] at hfn
    revert hfn
    cases (normalize_entities raw).first_name <;> simp
  have hPH : phoneChanged ctx (normalize_entities raw) = false := by
    simp only [phoneChanged]
    simp only [optValMatches] at hph
    revert hph
    cases (normalize_entities raw).phone <;> simp
  have hlu : loopUpdated ctx (normalize_entities raw) = false := by
    simp [loopUpdated, hFN, hPH, slotChanged_false hbr, slotChanged_false hmo,
      slotChanged_false hen, slotChanged_false hbo, slotChanged_false htr,
      slotChanged_false hmp, slotChanged_false hxp, slotChanged_false hmy,
      slotChanged_false hxy]
  have hrst : brandResetCond ctx (normalize_entities raw) = false := by
    simp only [brandResetCond, mergedFilters, slotMerge_self hbr]
    cases hcb : ctx.filters.brand <;> simp
  simp only [update_context, if_neg hne, hlu, hrst, Bool.or_false, Bool.false_or, if_false]
  exact ⟨rfl, rfl, rfl, rfl, rfl, rfl⟩

/-- Witness for C9: the empty normalized mapping of an empty raw extraction
against the fresh context — nothing changes and no acknowledgment is left. -/
theorem C9_witness :
    (update_context {} (normalize_entities {})).updated = false ∧
      (update_context {} (normalize_entities {})).ctx.filters = ({} : Context).filters ∧
      (update_context {} (normalize_entities {})).ctx.asked_questions
        = ({} : Context).asked_questions ∧
      (update_context {} (normalize_entities {})).ctx.search_performed
        = ({} : Context).search_performed ∧
      (update_context {} (normalize_entities {})).ctx.results_shown
        = ({} : Context).results_shown ∧
      (update_context {} (normalize_entities {})).ctx.last_acknowledged_info = none :=
  C9_theorem {} {} (by decide)

/-- Claim C6: while awaiting model confirmation the turn is routed to the
confirmation handler; a 'yes' with a non-empty stored candidate list adopts
the first candidate's brand and model and marks both question flags
answered; and for every confirmation value the handler exits with
`awaiting_model_confirmation` false and the candidate list cleared. -/
theorem C6_theorem :
    (∀ (ctx : Context) (e : EntityMap) (leads : List Lead),
        ctx.awaiting_model_confirmation = true →
        processTurnAction ctx e leads = .handleModelConfirmation) ∧
      (∀ (ctx : Context) (e : EntityMap) (car : Car) (cs : List Car),
        ctx.potential_model_matches = some (car :: cs) →
        e.confirmation = some "yes".toList →
        (handle_model_confirmation ctx e).filters.brand = some car.brand ∧
          (handle_model_confirmation ctx e).filters.model = some car.model ∧
          (handle_model_confirmation ctx e).asked_questions.asked_brand = true ∧
          (handle_model_confirmation ctx e).asked_questions.asked_model = true) ∧
      (∀ (ctx : Context) (e : EntityMap),
        (handle_model_confirmation ctx e).awaiting_model_confirmation = false ∧
          (handle_model_confirmation ctx e).potential_model_matches = none) := by
  refine ⟨?_, ?_, ?_⟩
  · intro ctx e leads h
    simp [processTurnAction, h]
  · intro ctx e car cs hpm hconf
    simp [handle_model_confirmation, hpm, hconf, getNextQuestionCtx]
  · intro ctx e
    simp [handle_model_confirmation]

/-- Witness for C6 at a concrete awaiting context holding one Toyota Corolla
candidate and a 'yes' confirmation. -/
theorem C6_witness :
    processTurnAction
        { awaiting_model_confirmation := true
          potential_model_matches :=
            some [{ id := 1
                    brand := "Toyota".toList
                    model := "Corolla".toList
                    price := 600000 }] }
        { confirmation := some "yes".toList } [] = .handleModelConfirmation ∧
      (handle_model_confirmation
          { awaiting_model_confirmation := true
            potential_model_matches :=
              some [{ id := 1
                      brand := "Toyota".toList
                      model := "Corolla".toList
                      price := 600000 }] }
          { confirmation := some "yes".toList }).filters.brand = some "Toyota".toList ∧
      (handle_model_confirmation
          { awaiting_model_confirmation := true
            potential_model_matches :=
              some [{ id := 1
                      brand := "Toyota".toList
                      model := "Corolla".toList
                      price := 600000 }] }
          { confirmation := some "yes".toList }).awaiting_model_confirmation = false :=
  ⟨C6_theorem.1 _ _ [] rfl,
    (C6_theorem.2.1 _ _
      { id := 1
        brand := "Toyota".toList
        model := "Corolla".toList
        price := 600000 }
      [] rfl rfl).1,
    (C6_theorem.2.2 _ _).1⟩

theorem survivesExclusion_anchor (car : Car) :
    survivesExclusion (some "Toyota".toList) (some "Corolla".toList) car
      = !(decide (pyLower car.brand = pyLower "Toyota".toList)
          && decide (pyLower car.model = pyLower "Corolla".toList)) := by
  simp [survivesExclusion, optStrTruthy, strTruthy]

theorem lower_bound_gt : 600000 * (1 - floatVal015) > (510000 : ℚ) := by
  norm_num [floatVal015]

/-- Claim C7, counterexample: the claim asserts the lookup admits exactly the
cars priced in the *closed* interval [510000, 690000], but the tolerance the
code applies is `decimal.Decimal(0.15)` — the exact binary value of the
float literal `0.15`, slightly below 15/100 — so the lower bound computed by
`find_similar_priced_cars` is strictly above 510000: a car priced exactly
510000 (with brand and model different from the anchor's) is rejected, and
the whole lookup over a db holding only that car returns nothing. -/
theorem C7_counterexample :
    car510 ∉ similarCandidates [car510] 600000 (some "Toyota".toList)
        (some "Corolla".toList) floatVal015 ∧
      find_similar_priced_cars [car510] 600000 (some "Toyota".toList)
        (some "Corolla".toList) floatVal015 5 = [] ∧
      (car510.price ≥ 510000 ∧ car510.price ≤ 690000) ∧
      car510.brand ≠ "Toyota".toList := by
  have hno : ∀ x, x ∉ similarCandidates [car510] 600000 (some "Toyota".toList)
      (some "Corolla".toList) floatVal015 := by
    intro x hx
    have hx1 := List.mem_filter.mp hx
    have hx2 := List.mem_filter.mp hx1.1
    have hx3 : x = car510 := by simpa using hx2.1
    subst hx3
    have hwin := hx2.2
    simp only [inPriceWindow, Bool.and_eq_true, decide_eq_true_eq] at hwin
    have hle := hwin.1
    rw [show car510.price = (510000 : ℚ) from rfl] at hle
    exact absurd hle (by norm_num [floatVal015])
  have hcand : similarCandidates [car510] 600000 (some "Toyota".toList)
      (some "Corolla".toList) floatVal015 = [] :=
    List.eq_nil_iff_forall_not_mem.mpr hno
  refine ⟨hno car510, ?_, by norm_num [car510], by decide⟩
  simp only [find_similar_priced_cars]
  rw [hcand]
  rfl

/-- Claim C7 (amended): at anchor price 600000 with the (exact) float-0.15
tolerance, the similarity lookup admits exactly the cars in the db whose
price lies in `[600000·(1−t), 600000·(1+t)]` where `t` is the binary value
of 0.15 — an interval strictly inside the claimed [510000, 690000], each
endpoint within 1 of the claimed one — excluding cars whose lowercased
brand and model both equal the anchor's; the returned list is ordered by
absolute distance of price from the anchor and drawn from the admitted
set. -/
theorem C7_theorem :
    (600000 * (1 - floatVal015) > (510000 : ℚ)) ∧
      (600000 * (1 - floatVal015) < (510001 : ℚ)) ∧
      (600000 * (1 + floatVal015) > (689999 : ℚ)) ∧
      (600000 * (1 + floatVal015) < (690000 : ℚ)) ∧
      (∀ (db : List Car) (car : Car),
        car ∈ similarCandidates db 600000 (some "Toyota".toList) (some "Corolla".toList)
            floatVal015 ↔
          (car ∈ db ∧ 600000 * (1 - floatVal015) ≤ car.price ∧
            car.price ≤ 600000 * (1 + floatVal015) ∧
            ¬(pyLower car.brand = pyLower "Toyota".toList ∧
              pyLower car.model = pyLower "Corolla".toList))) ∧
      (∀ db : List Car,
        (find_similar_priced_cars db 600000 (some "Toyota".toList) (some "Corolla".toList)
            floatVal015 5).Pairwise (closerTo 600000) ∧
          ∀ car ∈ find_similar_priced_cars db 600000 (some "Toyota".toList)
              (some "Corolla".toList) floatVal015 5,
            car ∈ similarCandidates db 600000 (some "Toyota".toList)
              (some "Corolla".toList) floatVal015) := by
  refine ⟨lower_bound_gt, by norm_num [floatVal015], by norm_num [floatVal015],
    by norm_num [floatVal015], ?_, ?_⟩
  · intro db car
    simp only [similarCandidates, List.mem_filter, inPriceWindow, survivesExclusion_anchor,
      Bool.and_eq_true, decide_eq_true_eq, Bool.not_eq_true', Bool.and_eq_false_iff,
      decide_eq_false_iff_not]
    constructor
    · rintro ⟨⟨hdb, hlo, hhi⟩, hex⟩
      refine ⟨hdb, hlo, hhi, ?_⟩
      rintro ⟨hb, hm⟩
      rcases hex with hb' | hm'
      · exact hb' hb
      · exact hm' hm
    · rintro ⟨hdb, hlo, hhi, hex⟩
      refine ⟨⟨hdb, hlo, hhi⟩, ?_⟩
      by_cases hb : pyLower car.brand = pyLower "Toyota".toList
      · exact Or.inr (fun hm => hex ⟨hb, hm⟩)
      · exact Or.inl hb
  · intro db
    haveI : IsTotal Car (closerTo 600000) := ⟨fun a b => le_total _ _⟩
    haveI : IsTrans Car (closerTo 600000) := ⟨fun a b c hab hbc => le_trans hab hbc⟩
    constructor
    · exact List.Pairwise.sublist (List.take_sublist 5 _)
        (List.sorted_insertionSort (closerTo 600000) _)
    · intro car hc
      have h1 : car ∈ (similarCandidates db 600000 (some "Toyota".toList)
          (some "Corolla".toList) floatVal015).insertionSort (closerTo 600000) :=
        List.take_subset _ _ hc
      exact ((List.perm_insertionSort (closerTo 600000) _).mem_iff).mp h1

/-- Witness for C7: over a one-car db holding a Honda Civic priced exactly at
the anchor 600000, the lookup returns that car, and the membership clause of
the amended claim places it in the admitted candidate set. -/
theorem C7_witness :
    car600 ∈ similarCandidates [car600] 600000 (some "Toyota".toList)
      (some "Corolla".toList) floatVal015 := by
  apply (C7_theorem.2.2.2.2.2 [car600]).2 car600
  have hwin : inPriceWindow 600000 floatVal015 car600 = true := by
    simp only [inPriceWindow, Bool.and_eq_true, decide_eq_true_eq]
    rw [show car600.price = (600000 : ℚ) from rfl]
    constructor <;> norm_num [floatVal015]
  have hexc : survivesExclusion (some "Toyota".toList) (some "Corolla".toList) car600
      = true := by
    rw [survivesExclusion_anchor]
    decide
  have hcand : similarCandidates [car600] 600000 (some "Toyota".toList)
      (some "Corolla".toList) floatVal015 = [car600] := by
    simp only [similarCandidates, List.filter_cons, hwin, hexc, if_true, List.filter_nil]
  simp only [find_similar_priced_cars]
  rw [hcand]
  simp [List.insertionSort, List.orderedInsert]

theorem should_search_of_model (ctx2 : Context) (h : ctx2.filters.model.isSome = true) :
    should_search ctx2 = true := by
  have hmem : "model".toList ∈ filledTriggerFields ctx2.filters := by
    simp [filledTriggerFields, h, List.mem_append]
  have hne : filledTriggerFields ctx2.filters ≠ [] := List.ne_nil_of_mem hmem
  simp [should_search, List.isEmpty_eq_false, hne]

theorem optStrTruthy_isSome {o : Option Str} (h : optStrTruthy o = true) :
    o.isSome = true := by
  cases o <;> simp_all [optStrTruthy]

theorem normalFlowAction_clarify (ctx1 : Context) (e : EntityMap)
    (hm : optStrTruthy (update_context ctx1 e).ctx.filters.model = true)
    (hb : optStrTruthy (update_context ctx1 e).ctx.filters.brand = false) :
    normalFlowAction ctx1 e = .clarifyModel := by
  have hss : should_search (update_context ctx1 e).ctx = true :=
    should_search_of_model _ (optStrTruthy_isSome hm)
  simp only [normalFlowAction, hm, hb, Bool.not_false, Bool.true_and]
  by_cases hc : (decide ("model".toList ∈ (update_context ctx1 e).keys)
      || !(update_context ctx1 e).updated) = true
  · rw [if_pos hc]
  · rw [if_neg hc]
    have hupd : (update_context ctx1 e).updated = true := by
      rcases Bool.or_eq_false_iff.mp (Bool.eq_false_iff.mpr hc) with ⟨_, h2⟩
      simpa using h2
    simp only [hupd, if_true, hss]
    simp [executedSearchAction, hm, hb]

/-- Claim C1, counterexample: the claim asserts that *every* turn processed
in a model-without-brand context (not awaiting confirmation) selects
`clarify_model`, but the turn pipeline checks similarity and immediate
intents first — a farewell turn in exactly such a context executes the
farewell action, not `clarify_model`. -/
theorem C1_counterexample :
    ctxModelOnly.filters.model ≠ none ∧ ctxModelOnly.filters.brand = none ∧
      ctxModelOnly.awaiting_model_confirmation = false ∧
      processTurnAction ctxModelOnly entFarewell [] = .farewell ∧
      processTurnAction ctxModelOnly entFarewell [] ≠ .clarifyModel := by
  refine ⟨by decide, by decide, by decide, by decide, by decide⟩

/-- Claim C1 (amended): for every turn that is not intercepted by a
higher-priority branch — the engine is not awaiting model confirmation and
the extracted entities carry no similarity request and no reset, farewell,
greeting or list-all intent — if after the customer-identification step and
the context update `filters.model` is truthy and `filters.brand` is not,
then the executed action of the turn is `clarify_model`: never `search` and
never `ask` (this covers both the direct clarification check and the
executor's redirect of a selected `search`). -/
theorem C1_theorem (ctx : Context) (e : EntityMap) (leads : List Lead)
    (haw : ctx.awaiting_model_confirmation = false)
    (hsim : e.is_similarity_request.getD false = false)
    (hres : e.is_reset.getD false = false)
    (hfar : e.is_farewell.getD false = false)
    (hgr : e.is_greeting.getD false = false)
    (hla : e.is_list_all.getD false = false)
    (hm : optStrTruthy
      (update_context (customerIdent ctx e leads) e).ctx.filters.model = true)
    (hb : optStrTruthy
      (update_context (customerIdent ctx e leads) e).ctx.filters.brand = false) :
    processTurnAction ctx e leads = .clarifyModel := by
  simp only [processTurnAction, haw, hsim, hres, hfar, hgr, hla, Bool.false_and,
    Bool.false_or, Bool.or_self, Bool.or_false, Bool.false_eq_true, if_false]
  exact normalFlowAction_clarify _ e hm hb

/-- Witness for C1: an empty entity mapping processed in a context storing
only the model Corolla — the turn executes `clarify_model`. -/
theorem C1_witness : processTurnAction ctxModelOnly ({} : EntityMap) [] = .clarifyModel :=
  C1_theorem ctxModelOnly {} [] (by decide) (by decide) (by decide) (by decide)
    (by decide) (by decide) (by decide) (by decide)
